import Mathlib

/-!
Shallow embedding of the Bravia serial-control protocol codec
(`serial_protocol.py`) and the device command layer (`device.py`).

The transport (pyserial) is modelled by an explicit byte stream: each
operation takes the list of bytes the transport would yield on reads, and
the outcome records the frames written, the result (or the exception the
Python code would raise, as a `BError`), and how many bytes of the stream
were consumed.  Bytes are `Nat`s; truncation to 8 bits is an explicit
`% 256` where the source applies `& 0xFF`.
-/

namespace Bravia

/-- Exceptions the Python source can raise, with the data their messages
carry.  `nameError` models the `NameError` that `_validate_function_byte`
actually raises at runtime: its `raise ValueError(f"... {function}")`
references the unbound name `function` (the parameter is `function_byte`),
so evaluating the f-string raises `NameError` before the `ValueError` is
ever constructed. -/
inductive BError where
  | nameError
  | payloadTooLarge (got : Nat)
  | invalidResponseHeader (got : Nat)
  | unexpectedPayloadLength (expected got : Nat)
  | checksumMismatch (expected actual : Nat)
  | deviceError (msg : String)
  | unrecognizedAnswer (answer : Nat)
  | unexpectedWriteResponseLength (got : Nat)
  | indexError
  | unexpectedPowerState (b : Nat)
  | unknownInputMode (code : Nat)
  deriving Repr, DecidableEq

instance {ε α : Type} [DecidableEq ε] [DecidableEq α] : DecidableEq (Except ε α) := fun x y =>
  match x, y with
  | .ok a, .ok b => if h : a = b then .isTrue (by rw [h]) else .isFalse (by simp [h])
  | .error a, .error b => if h : a = b then .isTrue (by rw [h]) else .isFalse (by simp [h])
  | .ok _, .error _ => .isFalse (by simp)
  | .error _, .ok _ => .isFalse (by simp)

/-- Outcome of one request/response exchange: the frames written to the
serial port, the returned value or raised exception, and the number of
response-stream bytes consumed by reads. -/
structure Outcome (α : Type) where
  sent : List (List Nat)
  result : Except BError α
  consumed : Nat
  deriving Repr, DecidableEq

/-- Checksum is the LSB of the sum of the payload bytes
(`sum(payload) & 0xFF` in `_calculate_checksum`). -/
def _calculate_checksum (payload : List Nat) : Nat :=
  payload.sum % 256

/-- Embeds `_validate_payload_checksum`: compares the checksum of all bytes
but the last against the last byte.  Python computes
`_calculate_checksum(payload_with_checksum[:-1])` first (well-defined on an
empty sequence), then indexes `payload_with_checksum[-1]`, which raises
`IndexError` on an empty sequence. -/
def _validate_payload_checksum (payload_with_checksum : List Nat) : Except BError Unit :=
  let expected_checksum := _calculate_checksum payload_with_checksum.dropLast
  match payload_with_checksum.getLast? with
  | none => .error .indexError
  | some actual_checksum =>
    if expected_checksum ≠ actual_checksum then
      .error (.checksumMismatch expected_checksum actual_checksum)
    else
      .ok ()

/-- Embeds `_validate_response_answer_byte`: `0x00` is success; `0x01`-`0x04`
map to fixed device-error messages; any other nonzero byte is reported as an
unrecognized answer carrying the raw byte. -/
def _validate_response_answer_byte (response_answer : Nat) : Except BError Unit :=
  if response_answer = 0x00 then
    .ok ()
  else if response_answer = 0x01 then
    .error (.deviceError "Limit Over (Abnormal End - over maximum value)")
  else if response_answer = 0x02 then
    .error (.deviceError "Limit Over (Abnormal End - under minimum value)")
  else if response_answer = 0x03 then
    .error (.deviceError "Command Canceled (Abnormal End)")
  else if response_answer = 0x04 then
    .error (.deviceError "Parse Error (Data Format Error)")
  else
    .error (.unrecognizedAnswer response_answer)

/-- Embeds `_validate_function_byte`: out of 0-255 raises; the raised
exception is the `NameError` from the unbound `function` in the error
message's f-string (see `BError.nameError`). -/
def _validate_function_byte (function_byte : Int) : Except BError Unit :=
  if function_byte < 0 ∨ function_byte > 255 then
    .error .nameError
  else
    .ok ()

/-- Embeds `_get_read_request_response`.  The Python reads 3 bytes (fewer if
the stream runs out), indexes them as `[0]` (header check), `[1]` (answer
check) and `[2]` (declared payload length) in that order — indexing past the
end raises `IndexError` — then reads `payload_length` further bytes, checks
the count, strips the trailing checksum byte, and validates the checksum
over the 3 initial bytes plus the full payload-with-checksum segment.
Returns the result and the number of stream bytes consumed. -/
def _get_read_request_response : List Nat → Except BError (List Nat) × Nat
  | [] => (.error .indexError, 0)
  | [h] =>
    if h ≠ 0x70 then (.error (.invalidResponseHeader h), 1)
    else (.error .indexError, 1)
  | [h, a] =>
    if h ≠ 0x70 then (.error (.invalidResponseHeader h), 2)
    else
      match _validate_response_answer_byte a with
      | .error e => (.error e, 2)
      | .ok () => (.error .indexError, 2)
  | h :: a :: n :: rest =>
    if h ≠ 0x70 then (.error (.invalidResponseHeader h), 3)
    else
      match _validate_response_answer_byte a with
      | .error e => (.error e, 3)
      | .ok () =>
        let payload_with_checksum := rest.take n
        let consumed := 3 + payload_with_checksum.length
        if payload_with_checksum.length ≠ n then
          (.error (.unexpectedPayloadLength n payload_with_checksum.length), consumed)
        else
          match _validate_payload_checksum ([h, a, n] ++ payload_with_checksum) with
          | .error e => (.error e, consumed)
          | .ok () => (.ok payload_with_checksum.dropLast, consumed)

/-- Embeds `_get_write_request_response`: reads 3 bytes; the count must be
exactly 3, then the header must be `0x70`, then the checksum over the first
2 bytes must equal the 3rd, then the answer byte must pass validation. -/
def _get_write_request_response (stream : List Nat) : Except BError Unit × Nat :=
  match stream.take 3 with
  | [h, a, c] =>
    if h ≠ 0x70 then (.error (.invalidResponseHeader h), 3)
    else
      match _validate_payload_checksum [h, a, c] with
      | .error e => (.error e, 3)
      | .ok () =>
        match _validate_response_answer_byte a with
        | .error e => (.error e, 3)
        | .ok () => (.ok (), 3)
  | other => (.error (.unexpectedWriteResponseLength other.length), other.length)

/-- Embeds `BraviaSerialPort.request_read`: validates the function byte,
writes the frame `[0x83, 0x00, function, 0xFF, 0xFF, checksum]` and parses
the read response from `stream`. -/
def request_read (function_byte : Int) (stream : List Nat) : Outcome (List Nat) :=
  match _validate_function_byte function_byte with
  | .error e => ⟨[], .error e, 0⟩
  | .ok () =>
    let message := [0x83, 0x00, function_byte.toNat, 0xFF, 0xFF]
    let message := message ++ [_calculate_checksum message]
    let r := _get_read_request_response stream
    ⟨[message], r.1, r.2⟩

/-- Embeds `BraviaSerialPort.request_write`: validates the function byte,
rejects payloads with `len(payload) + 1 > 255`, writes the frame
`[0x8C, 0x00, function, len(payload)+1, ...payload, checksum]` and parses
the 3-byte acknowledgement from `stream`. -/
def request_write (function_byte : Int) (payload : List Nat) (stream : List Nat) :
    Outcome Unit :=
  match _validate_function_byte function_byte with
  | .error e => ⟨[], .error e, 0⟩
  | .ok () =>
    let message_length_byte := payload.length + 1
    if message_length_byte > 255 then
      ⟨[], .error (.payloadTooLarge payload.length), 0⟩
    else
      let message := [0x8C, 0x00, function_byte.toNat, message_length_byte] ++ payload
      let message := message ++ [_calculate_checksum message]
      let r := _get_write_request_response stream
      ⟨[message], r.1, r.2⟩

/-- InputMode enumeration of `device.py`: most-significant nibble of the
code is byte 0 of the payload, least-significant nibble is byte 1. -/
inductive InputMode where
  | SCART_1 | SCART_2 | SCART_3
  | COMPONENT_1 | COMPONENT_2 | COMPONENT_3
  | HDMI_1 | HDMI_2 | HDMI_3 | HDMI_4 | HDMI_5
  | PC | SHARED_INPUT
  deriving Repr, DecidableEq

/-- Wire code of each `InputMode` member. -/
def InputMode.value : InputMode → Nat
  | .SCART_1 => 0x21
  | .SCART_2 => 0x22
  | .SCART_3 => 0x23
  | .COMPONENT_1 => 0x31
  | .COMPONENT_2 => 0x32
  | .COMPONENT_3 => 0x33
  | .HDMI_1 => 0x41
  | .HDMI_2 => 0x42
  | .HDMI_3 => 0x43
  | .HDMI_4 => 0x44
  | .HDMI_5 => 0x45
  | .PC => 0x51
  | .SHARED_INPUT => 0x71

/-- Lookup of a wire code in the `InputMode` enumeration; `none` models the
`ValueError` raised by `InputMode(value)` on an unknown code. -/
def InputMode.ofValue? (v : Nat) : Option InputMode :=
  if v = 0x21 then some .SCART_1
  else if v = 0x22 then some .SCART_2
  else if v = 0x23 then some .SCART_3
  else if v = 0x31 then some .COMPONENT_1
  else if v = 0x32 then some .COMPONENT_2
  else if v = 0x33 then some .COMPONENT_3
  else if v = 0x41 then some .HDMI_1
  else if v = 0x42 then some .HDMI_2
  else if v = 0x43 then some .HDMI_3
  else if v = 0x44 then some .HDMI_4
  else if v = 0x45 then some .HDMI_5
  else if v = 0x51 then some .PC
  else if v = 0x71 then some .SHARED_INPUT
  else none

/-- PictureMode enumeration of `device.py`. -/
inductive PictureMode where
  | VIVID | STANDARD | CINEMA_HOME | CUSTOM | CINEMA_PRO | SPORTS | GAME | GRAPHICS
  deriving Repr, DecidableEq

/-- Wire code of each `PictureMode` member. -/
def PictureMode.value : PictureMode → Nat
  | .VIVID => 0x00
  | .STANDARD => 0x01
  | .CINEMA_HOME => 0x02
  | .CUSTOM => 0x03
  | .CINEMA_PRO => 0x06
  | .SPORTS => 0x07
  | .GAME => 0x08
  | .GRAPHICS => 0x09

/-- Embeds `BraviaDevice.get_power_mode`: reads function byte `0x00`, then
indexes `response_bytes[0]` (an `IndexError` on an empty payload) and maps
`0x00` to `False`, `0x01` to `True`, anything else to a `ValueError`. -/
def get_power_mode (stream : List Nat) : Outcome Bool :=
  let o := request_read 0x00 stream
  match o.result with
  | .error e => ⟨o.sent, .error e, o.consumed⟩
  | .ok response_bytes =>
    match response_bytes.get? 0 with
    | none => ⟨o.sent, .error .indexError, o.consumed⟩
    | some b =>
      if b = 0x00 then ⟨o.sent, .ok false, o.consumed⟩
      else if b = 0x01 then ⟨o.sent, .ok true, o.consumed⟩
      else ⟨o.sent, .error (.unexpectedPowerState b), o.consumed⟩

/-- Embeds `BraviaDevice.set_power_mode`. -/
def set_power_mode (power_mode : Bool) (stream : List Nat) : Outcome Unit :=
  request_write 0x00 [if power_mode then 0x01 else 0x00] stream

/-- Embeds `BraviaDevice.set_picture_mode`: write with the direct-selection
sub-command byte `0x01` followed by the mode's code byte. -/
def set_picture_mode (picture_mode : PictureMode) (stream : List Nat) : Outcome Unit :=
  request_write 0x20 [0x01, picture_mode.value] stream

/-- Embeds `BraviaDevice.get_input_mode`: reads function byte `0x02`, then
reconstructs the code as `((b0 & 0x0F) << 4) | (b1 & 0x0F)` from payload
bytes 0 and 1 (indexing past the end raises `IndexError`) and looks it up in
the enumeration. -/
def get_input_mode (stream : List Nat) : Outcome InputMode :=
  let o := request_read 0x02 stream
  match o.result with
  | .error e => ⟨o.sent, .error e, o.consumed⟩
  | .ok response_bytes =>
    match response_bytes.get? 0, response_bytes.get? 1 with
    | some b0, some b1 =>
      let input_mode_enum_value := ((b0 &&& 0x0F) <<< 4) ||| (b1 &&& 0x0F)
      match InputMode.ofValue? input_mode_enum_value with
      | some m => ⟨o.sent, .ok m, o.consumed⟩
      | none => ⟨o.sent, .error (.unknownInputMode input_mode_enum_value), o.consumed⟩
    | _, _ => ⟨o.sent, .error .indexError, o.consumed⟩

/-- Embeds `BraviaDevice.set_input_mode`: write with payload byte 0 the high
nibble of the mode's code and byte 1 the low nibble. -/
def set_input_mode (input_mode : InputMode) (stream : List Nat) : Outcome Unit :=
  request_write 0x02 [(input_mode.value &&& 0xF0) >>> 4, input_mode.value &&& 0x0F] stream

/-- Synthetically crafted read response for a payload `p`, per the spec's
round-trip property: header `0x70`, answer `0x00`, declared length
`len(p)+1`, the payload bytes, and the correct trailing checksum. -/
def craftReadResponse (p : List Nat) : List Nat :=
  0x70 :: 0x00 :: (p.length + 1) :: (p ++ [(0x70 + 0x00 + (p.length + 1) + p.sum) % 256])

/-! Helper lemmas shared by the claim theorems. -/

theorem validate_function_byte_ok (f : Nat) (hf : f ≤ 255) :
    _validate_function_byte (f : Int) = Except.ok () := by
  have h : ¬((f : Int) < 0 ∨ (f : Int) > 255) := by omega
  simp [_validate_function_byte, h, hf]

theorem validate_payload_checksum_append (F : List Nat) (c : Nat) :
    _validate_payload_checksum (F ++ [c]) =
      if F.sum % 256 ≠ c then .error (.checksumMismatch (F.sum % 256) c)
      else Except.ok () := by
  simp [_validate_payload_checksum, _calculate_checksum]

theorem validate_payload_checksum_ok_iff (F : List Nat) (c : Nat) :
    _validate_payload_checksum (F ++ [c]) = Except.ok () ↔ F.sum % 256 = c := by
  rw [validate_payload_checksum_append]
  by_cases h : F.sum % 256 = c <;> simp [h]

theorem checksum_frame_ok (L : List Nat) :
    (L ++ [L.sum % 256]).getLastD 0 = (L ++ [L.sum % 256]).dropLast.sum % 256 ∧
    _validate_payload_checksum (L ++ [L.sum % 256]) = Except.ok () := by
  constructor
  · simp
  · rw [validate_payload_checksum_ok_iff]

theorem sum_set_add (F : List Nat) (i a b : Nat) (hi : F.get? i = some a) :
    (F.set i b).sum + a = F.sum + b := by
  induction F generalizing i with
  | nil => simp at hi
  | cons x xs ih =>
    cases i with
    | zero =>
      simp only [List.get?] at hi
      injection hi with hx
      subst hx
      simp [List.set]
      omega
    | succ j =>
      simp only [List.get?] at hi
      have := ih j hi
      simp [List.set, List.sum_cons]
      omega

theorem checksum_detects_mutation (F : List Nat) (i a b : Nat)
    (hi : F.get? i = some a) (ha : a < 256) (hb : b < 256) (hab : a ≠ b) :
    (F.set i b).sum % 256 ≠ F.sum % 256 := by
  have h := sum_set_add F i a b hi
  omega

theorem request_read_sent (f : Nat) (hf : f ≤ 255) (s : List Nat) :
    (request_read (f : Int) s).sent =
      [[0x83, 0x00, f, 0xFF, 0xFF] ++ [[0x83, 0x00, f, 0xFF, 0xFF].sum % 256]] := by
  simp [request_read, validate_function_byte_ok f hf, _calculate_checksum]

theorem request_write_sent (f : Nat) (p s : List Nat) (hf : f ≤ 255) (hp : p.length ≤ 254) :
    (request_write (f : Int) p s).sent =
      [([0x8C, 0x00, f, p.length + 1] ++ p) ++
        [([0x8C, 0x00, f, p.length + 1] ++ p).sum % 256]] := by
  have h255 : ¬(p.length + 1 > 255) := by omega
  simp [request_write, validate_function_byte_ok f hf, h255, _calculate_checksum]

theorem craft_parse (p : List Nat) :
    _get_read_request_response (craftReadResponse p) = (.ok p, 3 + (p.length + 1)) := by
  set c : Nat := (0x70 + 0x00 + (p.length + 1) + p.sum) % 256 with hc
  have hlen : (p ++ [c]).length = p.length + 1 := by simp
  have htake : (p ++ [c]).take (p.length + 1) = p ++ [c] := by
    rw [← hlen, List.take_length]
  have hsum : ([0x70, 0x00, p.length + 1] ++ p).sum % 256 = c := by
    simp [hc, List.sum_append]
    omega
  have hval : _validate_payload_checksum (0x70 :: 0x00 :: (p.length + 1) :: (p ++ [c])) =
      Except.ok () := by
    rw [show (0x70 :: 0x00 :: (p.length + 1) :: (p ++ [c])) =
        ([0x70, 0x00, p.length + 1] ++ p) ++ [c] by simp]
    rw [validate_payload_checksum_ok_iff]
    exact hsum
  simp only [craftReadResponse, _get_read_request_response]
  simp [_validate_response_answer_byte, htake, hlen, hval]

/-! Claim theorems. -/

/-- C2: for every payload `p` with `len(p) ≤ 254`, parsing a synthetically
crafted read response — header `0x70`, answer `0x00`, declared length
`len(p)+1`, the bytes of `p`, and the correct checksum byte — succeeds and
returns exactly `p`, the trailing checksum byte being stripped. -/
theorem C2_read_response_roundtrip (p : List Nat) (hp : p.length ≤ 254) :
    (_get_read_request_response (craftReadResponse p)).1 = .ok p := by
  rw [craft_parse]

/-- C2 witness at the concrete payload `[0x04, 0x02]`. -/
theorem C2_read_response_roundtrip_witness :
    (_get_read_request_response (craftReadResponse [0x04, 0x02])).1 = .ok [0x04, 0x02] :=
  C2_read_response_roundtrip [0x04, 0x02] (by decide)

/-- C4: for every function byte `f` in 0-255, `request_read` sends exactly
the six-byte frame `[0x83, 0x00, f, 0xFF, 0xFF, checksum]`, the function
byte in position 2 before the two `0xFF` filler bytes and the checksum the
low 8 bits of the sum of the first five bytes. -/
theorem C4_read_request_frame (f : Nat) (s : List Nat) (hf : f ≤ 255) :
    (request_read (f : Int) s).sent =
      [[0x83, 0x00, f, 0xFF, 0xFF, (0x83 + 0x00 + f + 0xFF + 0xFF) % 256]] := by
  rw [request_read_sent f hf s]
  simp
  omega

/-- C4 witness at the concrete function byte `5`. -/
theorem C4_read_request_frame_witness :
    (request_read ((5 : Nat) : Int) []).sent =
      [[0x83, 0x00, 5, 0xFF, 0xFF, (0x83 + 0x00 + 5 + 0xFF + 0xFF) % 256]] :=
  C4_read_request_frame 5 [] (by decide)

/-- C3: for every function byte `f` in 0-255 and payload `p`, `request_write`
sends exactly the frame `[0x8C, 0x00, f, len(p)+1, ...p, checksum]`, the
length field counting the payload bytes plus the checksum byte; a payload of
up to 254 bytes is accepted, and one of 255 or more bytes fails with the
size error before any I/O (nothing is sent, nothing is read). -/
theorem C3_write_request_frame (f : Nat) (p s : List Nat) (hf : f ≤ 255) :
    (p.length ≤ 254 →
      (request_write (f : Int) p s).sent =
        [([0x8C, 0x00, f, p.length + 1] ++ p) ++
          [([0x8C, 0x00, f, p.length + 1] ++ p).sum % 256]])
    ∧ (255 ≤ p.length →
      request_write (f : Int) p s = ⟨[], .error (.payloadTooLarge p.length), 0⟩) := by
  constructor
  · intro hp
    exact request_write_sent f p s hf hp
  · intro hp
    have h255 : p.length + 1 > 255 := by omega
    simp [request_write, validate_function_byte_ok f hf, h255]

/-- C3 witness at function byte `3` and the boundary 254-byte payload. -/
theorem C3_write_request_frame_witness :
    ((List.replicate 254 0).length ≤ 254 →
      (request_write ((3 : Nat) : Int) (List.replicate 254 0) []).sent =
        [([0x8C, 0x00, 3, (List.replicate 254 0).length + 1] ++ List.replicate 254 0) ++
          [([0x8C, 0x00, 3, (List.replicate 254 0).length + 1] ++
            List.replicate 254 0).sum % 256]])
    ∧ (255 ≤ (List.replicate 254 0).length →
      request_write ((3 : Nat) : Int) (List.replicate 254 0) [] =
        ⟨[], .error (.payloadTooLarge (List.replicate 254 0).length), 0⟩) :=
  C3_write_request_frame 3 (List.replicate 254 0) [] (by decide)

/-- C1: every frame constructed by the codec (read requests and write
requests alike) has as its final byte the low 8 bits of the sum of the
preceding bytes, and `_validate_payload_checksum` accepts exactly such
frames: for a byte sequence `F` with trailing byte `c` it succeeds iff
`F.sum % 256 = c`, and changing any single non-checksum byte of a valid
frame to a different byte value makes verification fail. -/
theorem C1_checksum_invariant (f : Nat) (p s F : List Nat) (c a b i : Nat)
    (hf : f ≤ 255) (hp : p.length ≤ 254)
    (hi : F.get? i = some a) (ha : a < 256) (hb : b < 256) (hab : a ≠ b) :
    (∀ m ∈ (request_read (f : Int) s).sent,
      m.getLastD 0 = m.dropLast.sum % 256 ∧ _validate_payload_checksum m = .ok ())
    ∧ (∀ m ∈ (request_write (f : Int) p s).sent,
      m.getLastD 0 = m.dropLast.sum % 256 ∧ _validate_payload_checksum m = .ok ())
    ∧ (_validate_payload_checksum (F ++ [c]) = .ok () ↔ F.sum % 256 = c)
    ∧ _validate_payload_checksum (F.set i b ++ [F.sum % 256]) ≠ .ok () := by
  refine ⟨?_, ?_, validate_payload_checksum_ok_iff F c, ?_⟩
  · intro m hm
    rw [request_read_sent f hf s, List.mem_singleton] at hm
    subst hm
    exact checksum_frame_ok _
  · intro m hm
    rw [request_write_sent f p s hf hp, List.mem_singleton] at hm
    subst hm
    exact checksum_frame_ok _
  · intro hok
    rw [validate_payload_checksum_ok_iff] at hok
    exact checksum_detects_mutation F i a b hi ha hb hab hok

/-- C1 witness: function byte `2`, payload `[1]`, frame `F = [0x10, 0x20]`
with trailing byte `0x30`, mutating position 0 from `0x10` to `0x11`. -/
theorem C1_checksum_invariant_witness :
    (∀ m ∈ (request_read ((2 : Nat) : Int) []).sent,
      m.getLastD 0 = m.dropLast.sum % 256 ∧ _validate_payload_checksum m = .ok ())
    ∧ (∀ m ∈ (request_write ((2 : Nat) : Int) [1] []).sent,
      m.getLastD 0 = m.dropLast.sum % 256 ∧ _validate_payload_checksum m = .ok ())
    ∧ (_validate_payload_checksum ([0x10, 0x20] ++ [0x30]) = .ok () ↔
        [0x10, 0x20].sum % 256 = 0x30)
    ∧ _validate_payload_checksum ([0x10, 0x20].set 0 0x11 ++ [[0x10, 0x20].sum % 256]) ≠
        .ok () :=
  C1_checksum_invariant 2 [1] [] [0x10, 0x20] 0x30 0x10 0x11 0
    (by decide) (by decide) (by decide) (by decide) (by decide) (by decide)

/-- C5: a read response whose answer byte is nonzero fails immediately with
the corresponding device error — for `0x01` the "limit over (above maximum)"
message, for an unlisted nonzero code the generic unrecognized error
carrying the raw byte — regardless of what follows in the stream, and the
declared payload is neither length-checked, checksum-checked nor consumed
(at most the 3 initial bytes are read). -/
theorem C5_answer_byte_short_circuit (a : Nat) (rest : List Nat) (e : BError)
    (hae : _validate_response_answer_byte a = .error e) :
    ((_get_read_request_response (0x70 :: a :: rest)).1 = .error e)
    ∧ ((_get_read_request_response (0x70 :: 0x01 :: rest)).1 =
        .error (.deviceError "Limit Over (Abnormal End - over maximum value)"))
    ∧ (a ≠ 0x01 → a ≠ 0x02 → a ≠ 0x03 → a ≠ 0x04 →
        (_get_read_request_response (0x70 :: a :: rest)).1 =
          .error (.unrecognizedAnswer a))
    ∧ ((_get_read_request_response (0x70 :: a :: rest)).2 ≤ 3) := by
  have ha0 : a ≠ 0 := by
    intro h
    subst h
    simp [_validate_response_answer_byte] at hae
  refine ⟨?_, ?_, ?_, ?_⟩
  · cases rest with
    | nil => simp [_get_read_request_response, hae]
    | cons x t => simp [_get_read_request_response, hae]
  · have h1 : _validate_response_answer_byte 0x01 =
        .error (.deviceError "Limit Over (Abnormal End - over maximum value)") := by
      decide
    cases rest with
    | nil => simp [_get_read_request_response, h1]
    | cons x t => simp [_get_read_request_response, h1]
  · intro h1 h2 h3 h4
    have hu : _validate_response_answer_byte a = .error (.unrecognizedAnswer a) := by
      simp [_validate_response_answer_byte, ha0, h1, h2, h3, h4]
    cases rest with
    | nil => simp [_get_read_request_response, hu]
    | cons x t => simp [_get_read_request_response, hu]
  · cases rest with
    | nil => simp [_get_read_request_response, hae]
    | cons x t => simp [_get_read_request_response, hae]

/-- C5 witness: answer byte `0x05` (unlisted, maps to the unrecognized
error) followed by two payload bytes whose checksum is wrong. -/
theorem C5_answer_byte_short_circuit_witness :
    ((_get_read_request_response (0x70 :: 0x05 :: [0x02, 0x99, 0x99])).1 =
        .error (.unrecognizedAnswer 0x05))
    ∧ ((_get_read_request_response (0x70 :: 0x01 :: [0x02, 0x99, 0x99])).1 =
        .error (.deviceError "Limit Over (Abnormal End - over maximum value)"))
    ∧ ((0x05 : Nat) ≠ 0x01 → (0x05 : Nat) ≠ 0x02 → (0x05 : Nat) ≠ 0x03 →
        (0x05 : Nat) ≠ 0x04 →
        (_get_read_request_response (0x70 :: 0x05 :: [0x02, 0x99, 0x99])).1 =
          .error (.unrecognizedAnswer 0x05))
    ∧ ((_get_read_request_response (0x70 :: 0x05 :: [0x02, 0x99, 0x99])).2 ≤ 3) :=
  C5_answer_byte_short_circuit 0x05 [0x02, 0x99, 0x99] (.unrecognizedAnswer 0x05)
    (by decide)

/-- C6: write-acknowledgement validation runs length check, then header
check, then checksum check, then answer check, in that order: fewer than 3
bytes give the length error whatever they contain; a wrong header gives the
header error whatever the checksum and answer are; a correct header with a
wrong checksum gives the checksum error even when the answer byte is
nonzero; and with header and checksum right a nonzero answer byte gives its
device error, a zero answer byte success. -/
theorem C6_write_ack_validation_order (h a c : Nat) (s : List Nat) (e : BError)
    (hs : s.length < 3) (hae : _validate_response_answer_byte a = .error e) :
    ((_get_write_request_response s).1 =
        .error (.unexpectedWriteResponseLength s.length))
    ∧ (h ≠ 0x70 → (_get_write_request_response [h, a, c]).1 =
        .error (.invalidResponseHeader h))
    ∧ ((0x70 + a) % 256 ≠ c → (_get_write_request_response [0x70, a, c]).1 =
        .error (.checksumMismatch ((0x70 + a) % 256) c))
    ∧ ((0x70 + a) % 256 = c → (_get_write_request_response [0x70, a, c]).1 =
        .error e)
    ∧ ((_get_write_request_response [0x70, 0x00, 0x70]).1 = .ok ()) := by
  have hck : ∀ x y : Nat, _validate_payload_checksum [0x70, x, y] =
      if (0x70 + x) % 256 ≠ y then .error (.checksumMismatch ((0x70 + x) % 256) y)
      else Except.ok () := by
    intro x y
    have := validate_payload_checksum_append [0x70, x] y
    simpa using this
  refine ⟨?_, ?_, ?_, ?_, ?_⟩
  · rcases s with _ | ⟨x, _ | ⟨y, _ | ⟨z, t⟩⟩⟩
    · simp [_get_write_request_response]
    · simp [_get_write_request_response]
    · simp [_get_write_request_response]
    · exact absurd hs (by simp)
  · intro hh
    simp [_get_write_request_response, hh]
  · intro hcne
    simp [_get_write_request_response, hck, hcne]
  · intro hceq
    simp [_get_write_request_response, hck, hceq, hae]
  · simp [_get_write_request_response, hck]
    decide

/-- C6 witness: a one-byte stream for the length error, ack bytes
`[0x13, 0x05, 0x99]` for the header branch, answer byte `0x05` with wrong
checksum byte `0x99` for the checksum branch. -/
theorem C6_write_ack_validation_order_witness :
    ((_get_write_request_response [0x70]).1 =
        .error (.unexpectedWriteResponseLength [0x70].length))
    ∧ ((0x13 : Nat) ≠ 0x70 → (_get_write_request_response [0x13, 0x05, 0x99]).1 =
        .error (.invalidResponseHeader 0x13))
    ∧ ((0x70 + 0x05) % 256 ≠ 0x99 → (_get_write_request_response [0x70, 0x05, 0x99]).1 =
        .error (.checksumMismatch ((0x70 + 0x05) % 256) 0x99))
    ∧ ((0x70 + 0x05) % 256 = 0x99 → (_get_write_request_response [0x70, 0x05, 0x99]).1 =
        .error (.unrecognizedAnswer 0x05))
    ∧ ((_get_write_request_response [0x70, 0x00, 0x70]).1 = .ok ()) :=
  C6_write_ack_validation_order 0x13 0x05 0x99 [0x70] (.unrecognizedAnswer 0x05)
    (by decide) (by decide)

theorem input_mode_ofValue_roundtrip (m : InputMode) :
    InputMode.ofValue? (((((m.value &&& 0xF0) >>> 4) &&& 0x0F) <<< 4) |||
      ((m.value &&& 0x0F) &&& 0x0F)) = some m := by
  cases m <;> decide

theorem request_read_craft_result (p : List Nat) :
    (request_read 0x02 (craftReadResponse p)).result = .ok p := by
  have hv : _validate_function_byte 0x02 = Except.ok () := by decide
  simp [request_read, hv, craft_parse p]

/-- C7: the input-mode nibble codec round-trips.  `set_input_mode m` writes
the two-byte payload `[high nibble of m.value, low nibble of m.value]`
(positions 4 and 5 of the frame), so `HDMI_2` (code `0x42`) yields payload
bytes `[0x04, 0x02]`; decoding a two-byte read payload reconstructs the code
as `((b0 & 0x0F) << 4) | (b1 & 0x0F)`, ignoring each byte's high nibble, so
`get_input_mode` recovers `m` from `set_input_mode m`'s payload and fails
with the decode error exactly when the reconstructed code is not a known
enumeration value. -/
theorem C7_input_mode_nibble_codec (m : InputMode) (b0 b1 : Nat) (s : List Nat) :
    ((set_input_mode m s).sent =
      [[0x8C, 0x00, 0x02, 0x03, (m.value &&& 0xF0) >>> 4, m.value &&& 0x0F,
        (0x8C + 0x00 + 0x02 + 0x03 + ((m.value &&& 0xF0) >>> 4) +
          (m.value &&& 0x0F)) % 256]])
    ∧ ((set_input_mode .HDMI_2 s).sent =
        [[0x8C, 0x00, 0x02, 0x03, 0x04, 0x02, 0x97]])
    ∧ ((get_input_mode (craftReadResponse [b0, b1])).result =
        match InputMode.ofValue? (((b0 &&& 0x0F) <<< 4) ||| (b1 &&& 0x0F)) with
        | some m2 => .ok m2
        | none => .error (.unknownInputMode (((b0 &&& 0x0F) <<< 4) ||| (b1 &&& 0x0F))))
    ∧ ((get_input_mode
          (craftReadResponse [(m.value &&& 0xF0) >>> 4, m.value &&& 0x0F])).result =
        .ok m) := by
  have hsent : ∀ m' : InputMode, (set_input_mode m' s).sent =
      [[0x8C, 0x00, 0x02, 0x03, (m'.value &&& 0xF0) >>> 4, m'.value &&& 0x0F,
        (0x8C + 0x00 + 0x02 + 0x03 + ((m'.value &&& 0xF0) >>> 4) +
          (m'.value &&& 0x0F)) % 256]] := by
    intro m'
    have hv : _validate_function_byte 0x02 = Except.ok () := by decide
    have h255 : ¬(([(m'.value &&& 0xF0) >>> 4, m'.value &&& 0x0F] : List Nat).length + 1 > 255) := by
      simp
    simp [set_input_mode, request_write, hv, h255, _calculate_checksum]
    omega
  have hdec : ∀ x y : Nat, (get_input_mode (craftReadResponse [x, y])).result =
      match InputMode.ofValue? (((x &&& 0x0F) <<< 4) ||| (y &&& 0x0F)) with
      | some m2 => .ok m2
      | none => .error (.unknownInputMode (((x &&& 0x0F) <<< 4) ||| (y &&& 0x0F))) := by
    intro x y
    have hr := request_read_craft_result [x, y]
    simp only [get_input_mode, hr]
    cases hv : InputMode.ofValue? (((x &&& 0x0F) <<< 4) ||| (y &&& 0x0F)) <;>
      simp [hv]
  refine ⟨hsent m, ?_, hdec b0 b1, ?_⟩
  · rw [hsent .HDMI_2]
    decide
  · rw [hdec ((m.value &&& 0xF0) >>> 4) (m.value &&& 0x0F),
      input_mode_ofValue_roundtrip m]

/-- C8 evidence: for a function byte outside 0-255, both `request_read` and
`request_write` raise before any transport I/O — nothing is sent and nothing
is read — but the exception is the `NameError` from the unbound name
`function` in `_validate_function_byte`'s error f-string, not the intended
out-of-range `ValueError`. -/
theorem C8_out_of_range_function_byte (f : Int) (p s : List Nat)
    (hf : f < 0 ∨ f > 255) :
    request_read f s = ⟨[], .error .nameError, 0⟩
    ∧ request_write f p s = ⟨[], .error .nameError, 0⟩ := by
  have hv : _validate_function_byte f = .error .nameError := by
    unfold _validate_function_byte
    rw [if_pos hf]
  exact ⟨by simp [request_read, hv], by simp [request_write, hv]⟩

/-- C8 witness at function byte `256`. -/
theorem C8_out_of_range_function_byte_witness :
    request_read 256 [] = ⟨[], .error .nameError, 0⟩
    ∧ request_write 256 [] [] = ⟨[], .error .nameError, 0⟩ :=
  C8_out_of_range_function_byte 256 [] [] (by decide)

/-- C9 counterexample: sending a read request against the response stream
`[0x70, 0x01, 0x02, 0x00, 0x00]` (nonzero answer byte, declared payload
length 2, both payload bytes available) raises the device error after
consuming only 3 bytes, not the 3 + 2 bytes of the complete response: the
declared payload bytes are left unread in the stream. -/
theorem C9_counterexample_unconsumed_payload :
    request_read 0x00 [0x70, 0x01, 0x02, 0x00, 0x00] =
      ⟨[[0x83, 0x00, 0x00, 0xFF, 0xFF, 0x81]],
        .error (.deviceError "Limit Over (Abnormal End - over maximum value)"), 3⟩
    ∧ (3 : Nat) ≠ [0x70, 0x01, 0x02, 0x00, 0x00].length := by
  constructor
  · rfl
  · decide

theorem read_consumed_aux (n : Nat) (rest : List Nat) :
    (_get_read_request_response (0x70 :: 0x00 :: n :: rest)).2 =
      3 + (rest.take n).length := by
  simp only [_get_read_request_response, _validate_response_answer_byte]
  norm_num
  split
  · simp
  · split <;> simp

/-- C9 amended: when the header check and answer-byte check pass, the parser
consumes the 3 initial bytes plus the complete declared payload when the
stream provides it — including when it then returns by raising a checksum
error — but only the bytes actually available when the stream is short (the
length-mismatch error case); and when the header check or the answer-byte
check fails, it consumes only the 3 initial bytes, leaving the declared
payload bytes unread in the stream. -/
theorem C9_read_consumption (h a n : Nat) (rest : List Nat) :
    (h = 0x70 → a = 0 → n ≤ rest.length →
      (_get_read_request_response (h :: a :: n :: rest)).2 = 3 + n)
    ∧ (h = 0x70 → a = 0 → rest.length < n →
      (_get_read_request_response (h :: a :: n :: rest)).2 = 3 + rest.length)
    ∧ ((h ≠ 0x70 ∨ a ≠ 0) → (_get_read_request_response (h :: a :: n :: rest)).2 = 3) := by
  refine ⟨?_, ?_, ?_⟩
  · intro hh ha hn
    subst hh
    subst ha
    rw [read_consumed_aux]
    simp [List.length_take]
    omega
  · intro hh ha hn
    subst hh
    subst ha
    rw [read_consumed_aux]
    simp [List.length_take]
    omega
  · intro hcase
    by_cases hh : h = 0x70
    · have ha : a ≠ 0 := by
        rcases hcase with h1 | h1
        · exact absurd hh h1
        · exact h1
      have hv : ∃ e, _validate_response_answer_byte a = .error e := by
        unfold _validate_response_answer_byte
        split
        · exact absurd (by assumption) ha
        · split
          · exact ⟨_, rfl⟩
          · split
            · exact ⟨_, rfl⟩
            · split
              · exact ⟨_, rfl⟩
              · split
                · exact ⟨_, rfl⟩
                · exact ⟨_, rfl⟩
      obtain ⟨e, he⟩ := hv
      subst hh
      simp [_get_read_request_response, he]
    · simp [_get_read_request_response, hh]

/-- C10 counterexample: with declared payload length 0 (response stream
`[0x70, 0x00, 0x00]`), `get_power_mode` fails with the protocol layer's
checksum error — the declared-length byte can never satisfy the checksum —
and not with the indexing error the claim asserts for that length. -/
theorem C10_counterexample_length_zero :
    (get_power_mode [0x70, 0x00, 0x00]).result = .error (.checksumMismatch 0x70 0x00)
    ∧ (get_power_mode [0x70, 0x00, 0x00]).result ≠ .error .indexError := by
  constructor
  · rfl
  · decide

/-- C10 amended: a power-state read response with declared payload length 1
and matching checksum byte `0x71` yields an empty payload after checksum
stripping, and `get_power_mode`'s access of payload byte 0 then raises the
indexing error, not the decode error (with any other trailing byte the
checksum error fires first); a declared length of 0 always fails checksum
validation in the protocol layer instead of reaching `get_power_mode`; and
the single-byte-payload expectation itself is never validated: a longer
payload is accepted with only byte 0 inspected. -/
theorem C10_empty_power_payload (c : Nat) :
    ((get_power_mode [0x70, 0x00, 0x01, c]).result =
      if c = 0x71 then .error .indexError
      else .error (.checksumMismatch 0x71 c))
    ∧ ((get_power_mode [0x70, 0x00, 0x00]).result =
        .error (.checksumMismatch 0x70 0x00))
    ∧ ((get_power_mode [0x70, 0x00, 0x03, 0x00, 0x99, 0x0C]).result = .ok false) := by
  refine ⟨?_, by decide, by decide⟩
  by_cases hc : c = 0x71
  · subst hc
    decide
  · have h := validate_payload_checksum_append [0x70, 0x00, 0x01] c
    rw [show ([0x70, 0x00, 0x01] : List Nat) ++ [c] = [0x70, 0x00, 0x01, c] from rfl] at h
    have h113 : ([0x70, 0x00, 0x01] : List Nat).sum % 256 = 0x71 := by decide
    rw [h113] at h
    have hv : _validate_payload_checksum [0x70, 0x00, 0x01, c] =
        .error (.checksumMismatch 0x71 c) := by
      rw [h, if_pos (by omega : (0x71 : Nat) ≠ c)]
    simp [get_power_mode, request_read, _get_read_request_response,
      _validate_response_answer_byte, _validate_function_byte, hv, hc]

end Bravia
